import Mathlib

/-!
Verification development for a Stripe API client library (Rust crate).

The crate consists of resource DTOs (Refund, Subscription, Customer, Source),
parameter structures for each operation, and thin HTTP call wrappers.  The
definitions below shallowly embed the marshalling behaviour of those files:

- serde serialization of parameter structures is embedded as functions
  producing an association list of JSON key/value pairs, with
  skip_serializing_if attributes embedded as conditional emission;
- serde deserialization is embedded as functions from a JSON value model
  into an Option of the DTO, where none models a parse error;
- path construction of the operation methods is embedded as string functions;
- type-level facts of the Rust source (which nominal type an id field or an
  id parameter has, which structs carry an impl Object block, which struct
  fields are non-optional) are recorded as enumerated data so that theorems
  can speak about them.

Types that live in files of the crate that are not part of the corpus
(params.rs, ids.rs, card.rs, currency.rs and the other DTO files) are
modelled from the specification; each such definition carries a doc comment
starting with "Modelled from the spec:".
-/

namespace Stripe

/-- JSON values, used to model serde payloads on both directions of the
wire.  Integer wire numbers are modelled as Int; the two f64 parameter
fields of the corpus are carried as Float and are never analysed. -/
inductive Json where
  | null
  | bool (b : Bool)
  | num (n : Int)
  | flt (x : Float)
  | str (s : String)
  | arr (elems : List Json)
  | obj (fields : List (String × Json))

/-- Unix timestamp, the Timestamp alias of the crate (seconds, i64). -/
abbrev Timestamp := Int

/-- Modelled from the spec: the Metadata map of the missing params.rs, a
string-to-string key/value map, represented as an association list. -/
abbrev Metadata := List (String × String)

/-- Modelled from the spec: the Currency enum of the missing currency.rs, a
three-letter lowercase ISO code; represented by its wire string. -/
abbrev Currency := String

/-- Modelled from the spec: identifier newtypes of the missing ids.rs, one
opaque string wrapper per resource kind.  Display renders the inner string. -/
structure RefundId where
  val : String
  deriving DecidableEq

/-- Modelled from the spec: charge identifier newtype of the missing ids.rs. -/
structure ChargeId where
  val : String
  deriving DecidableEq

/-- Modelled from the spec: subscription identifier newtype of the missing ids.rs. -/
structure SubscriptionId where
  val : String
  deriving DecidableEq

/-- Modelled from the spec: customer identifier newtype of the missing ids.rs. -/
structure CustomerId where
  val : String
  deriving DecidableEq

/-- Modelled from the spec: plan identifier newtype of the missing ids.rs. -/
structure PlanId where
  val : String
  deriving DecidableEq

/-- Serialization of one optional struct field carrying a
skip_serializing_if Option is_none attribute: an unset field emits no
key at all, a set field emits one key with the encoded value. -/
def optEntry (key : String) (enc : α → Json) : Option α → List (String × Json)
  | none => []
  | some v => [(key, enc v)]

/-- Serialization of an expand field (a string slice) carrying a
skip_serializing_if Expand is_empty attribute: an empty list emits no key. -/
def expandEntry (expand : List String) : List (String × Json) :=
  if expand.isEmpty then [] else [("expand", Json.arr (expand.map Json.str))]

/-- Serialization of a Metadata value as a JSON object with string values. -/
def encMetadata (m : Metadata) : Json :=
  Json.obj (m.map fun p => (p.1, Json.str p.2))

/-- Parse a JSON string. -/
def parseStr : Json → Option String
  | .str s => some s
  | _ => none

/-- Parse a JSON integer number. -/
def parseInt : Json → Option Int
  | .num n => some n
  | _ => none

/-- Parse a JSON boolean. -/
def parseBool : Json → Option Bool
  | .bool b => some b
  | _ => none

/-- Parse a Metadata map: an object whose values are all strings. -/
def parseMetadata : Json → Option Metadata
  | .obj kvs => kvs.mapM fun kv =>
      match kv.2 with
      | .str s => some (kv.1, s)
      | _ => none
  | _ => none

/-- Serde semantics of a required struct field: the key must be present in
the payload object and its value must parse, otherwise the whole
deserialization fails. -/
def reqField (parse : Json → Option α) (kvs : List (String × Json)) (key : String) :
    Option α :=
  (kvs.lookup key).bind parse

/-- Serde semantics of an Option struct field: a missing key or an explicit
null yields an unset field; a present non-null value must parse. -/
def optField (parse : Json → Option α) (kvs : List (String × Json)) (key : String) :
    Option (Option α) :=
  match kvs.lookup key with
  | none => some none
  | some .null => some none
  | some j => (parse j).map some

/-- The snake_case renaming rule of the serde rename_all attribute:
lowercase every character and put an underscore before each uppercase
character that is not the first. -/
def snakeCaseAux : Bool → List Char → List Char
  | _, [] => []
  | first, c :: cs =>
    if c.isUpper then
      (if first then [c.toLower] else ['_', c.toLower]) ++ snakeCaseAux false cs
    else c :: snakeCaseAux false cs

/-- Apply the serde rename_all snake_case rule to a variant name. -/
def snakeCase (s : String) : String := ⟨snakeCaseAux true s.data⟩

/-- Modelled from the spec: the Expandable sum type of the missing
params.rs — a reference field the server returns either as a bare
identifier string or as the fully inlined target object. -/
inductive Expandable (α : Type) where
  | id (i : String)
  | object (o : α)
  deriving DecidableEq

/-- Modelled from the spec: deserialization of an Expandable field
shape-sniffs the payload — a JSON string yields the identifier variant,
any other shape is handed to the target object parser, and the whole
parse fails when neither matches. -/
def Expandable.fromJson (objFromJson : Json → Option α) : Json → Option (Expandable α)
  | .str s => some (.id s)
  | j => (objFromJson j).map .object

/-- Extract the identifier from either variant of an Expandable; the
object variant derives it from the object itself. -/
def Expandable.idOf (getId : α → String) : Expandable α → String
  | .id i => i
  | .object o => getId o

/-- Modelled from the spec: serialization of an Expandable always emits
the identifier form. -/
def Expandable.toJson (getId : α → String) (e : Expandable α) : Json :=
  Json.str (e.idOf getId)

/-- Modelled from the spec: the target DTOs of the expandable reference
fields of this corpus (BalanceTransaction, Charge, TransferReversal,
Customer, PaymentMethod, Invoice) live in files that are absent; the spec
says a full object always carries its own id, so the target is modelled by
an object exposing exactly that identifier.  Its parser accepts a JSON
object with a string id field. -/
structure StubObject where
  id : String
  deriving DecidableEq

/-- Parser for a StubObject: a JSON object carrying a string id field. -/
def StubObject.fromJson : Json → Option StubObject
  | .obj kvs =>
    match kvs.lookup "id" with
    | some (.str s) => some ⟨s⟩
    | _ => none
  | _ => none

/-- Modelled from the spec: DTO and parameter types referenced by the
corpus but defined in absent files (Discount, Plan, TaxRate, PaymentSource,
SubscriptionItem, SubscriptionBillingThresholds, Address, CardParams,
Card); each is an opaque JSON object payload, never analysed by a claim. -/
structure StubPayload where
  payload : List (String × Json)

/-- Modelled from the spec: Discount DTO, absent file. -/
abbrev Discount := StubPayload

/-- Modelled from the spec: Plan DTO, absent file. -/
abbrev Plan := StubPayload

/-- Modelled from the spec: TaxRate DTO, absent file. -/
abbrev TaxRate := StubPayload

/-- Modelled from the spec: PaymentSource DTO, absent file. -/
abbrev PaymentSource := StubPayload

/-- Modelled from the spec: SubscriptionItem DTO, absent file. -/
abbrev SubscriptionItem := StubPayload

/-- Modelled from the spec: SubscriptionBillingThresholds DTO, absent file. -/
abbrev SubscriptionBillingThresholds := StubPayload

/-- Modelled from the spec: Address type, absent file. -/
abbrev Address := StubPayload

/-- Modelled from the spec: CardParams type, absent file. -/
abbrev CardParams := StubPayload

/-- Modelled from the spec: Card DTO, absent file. -/
abbrev Card := StubPayload

/-- Modelled from the spec: the paginated list container of the missing
params.rs — one page of items in server order, the has_more flag, and
total-count metadata. -/
structure StripeList (α : Type) where
  data : List α
  has_more : Bool
  total_count : Option Int

/-- Elementwise parsing of a JSON array body, in order; fails when any
element fails. -/
def traverseOpt (f : Json → Option α) : List Json → Option (List α)
  | [] => some []
  | j :: js => (f j).bind fun a => (traverseOpt f js).map fun as => a :: as

/-- Modelled from the spec: deserialization of a list response page — the
data array and the has_more flag are required, total_count is optional. -/
def StripeList.fromJson (f : Json → Option α) : Json → Option (StripeList α)
  | .obj kvs =>
    match kvs.lookup "data", kvs.lookup "has_more", kvs.lookup "total_count" with
    | some (.arr js), some (.bool b), none =>
      (traverseOpt f js).map fun items => ⟨items, b, none⟩
    | some (.arr js), some (.bool b), some .null =>
      (traverseOpt f js).map fun items => ⟨items, b, none⟩
    | some (.arr js), some (.bool b), some (.num n) =>
      (traverseOpt f js).map fun items => ⟨items, b, some n⟩
    | _, _, _ => none
  | _ => none

/-- The RefundReason enum of refund.rs (variants Duplicate, Fraudulent,
RequestedByCustomer), serialized with the serde rename_all snake_case
attribute. -/
inductive RefundReason where
  | Duplicate
  | Fraudulent
  | RequestedByCustomer
  deriving DecidableEq

/-- The hand-written as_str method of RefundReason in refund.rs. -/
def RefundReason.as_str : RefundReason → String
  | .Duplicate => "duplicate"
  | .Fraudulent => "fraudulent"
  | .RequestedByCustomer => "requested_by_customer"

/-- The Rust variant name of a RefundReason value, as written in the source. -/
def RefundReason.variantName : RefundReason → String
  | .Duplicate => "Duplicate"
  | .Fraudulent => "Fraudulent"
  | .RequestedByCustomer => "RequestedByCustomer"

/-- The wire string the derived serde Serialize emits for a RefundReason:
the variant name under the rename_all snake_case rule. -/
def RefundReason.wireName (r : RefundReason) : String :=
  snakeCase r.variantName

/-- The derived serde Serialize of a RefundReason: a JSON string holding
the renamed variant name. -/
def RefundReason.toJson (r : RefundReason) : Json :=
  Json.str r.wireName

/-- The derived serde Deserialize of a RefundReason: accepts exactly the
three renamed variant names. -/
def RefundReason.fromWireStr (s : String) : Option RefundReason :=
  if s = "duplicate" then some .Duplicate
  else if s = "fraudulent" then some .Fraudulent
  else if s = "requested_by_customer" then some .RequestedByCustomer
  else none

/-- The derived serde Deserialize of a RefundReason from a JSON value. -/
def RefundReason.fromJson : Json → Option RefundReason
  | .str s => RefundReason.fromWireStr s
  | _ => none

/-- The Display impl of RefundReason in refund.rs delegates to as_str. -/
def RefundReason.displayStr (r : RefundReason) : String :=
  r.as_str

/-- The Refund DTO of refund.rs.  Fields appear in declaration order;
Option fields carry a skip_serializing_if Option is_none attribute in the
source.  The expandable reference targets (BalanceTransaction, Charge,
TransferReversal) are files absent from the corpus and are represented by
StubObject. -/
structure Refund where
  id : RefundId
  amount : Int
  balance_transaction : Option (Expandable StubObject)
  charge : Option (Expandable StubObject)
  created : Timestamp
  currency : Currency
  description : Option String
  failure_balance_transaction : Option (Expandable StubObject)
  failure_reason : Option String
  metadata : Metadata
  reason : Option String
  receipt_number : Option String
  source_transfer_reversal : Option (Expandable StubObject)
  status : Option String
  transfer_reversal : Option (Expandable StubObject)
  deriving DecidableEq

/-- The derived serde Deserialize of a Refund: the payload must be a JSON
object; the non-Option fields id, amount, created, currency and metadata
are required, every Option field defaults to unset when its key is absent;
unknown keys are ignored. -/
def Refund.fromJson (j : Json) : Option Refund :=
  match j with
  | .obj kvs => do
    let id ← reqField parseStr kvs "id"
    let amount ← reqField parseInt kvs "amount"
    let balance_transaction ←
      optField (Expandable.fromJson StubObject.fromJson) kvs "balance_transaction"
    let charge ← optField (Expandable.fromJson StubObject.fromJson) kvs "charge"
    let created ← reqField parseInt kvs "created"
    let currency ← reqField parseStr kvs "currency"
    let description ← optField parseStr kvs "description"
    let failure_balance_transaction ←
      optField (Expandable.fromJson StubObject.fromJson) kvs "failure_balance_transaction"
    let failure_reason ← optField parseStr kvs "failure_reason"
    let metadata ← reqField parseMetadata kvs "metadata"
    let reason ← optField parseStr kvs "reason"
    let receipt_number ← optField parseStr kvs "receipt_number"
    let source_transfer_reversal ←
      optField (Expandable.fromJson StubObject.fromJson) kvs "source_transfer_reversal"
    let status ← optField parseStr kvs "status"
    let transfer_reversal ←
      optField (Expandable.fromJson StubObject.fromJson) kvs "transfer_reversal"
    pure
      { id := ⟨id⟩, amount, balance_transaction, charge, created, currency,
        description, failure_balance_transaction, failure_reason, metadata,
        reason, receipt_number, source_transfer_reversal, status,
        transfer_reversal }
  | _ => none

/-- Serialization of an optional expandable reference field. -/
def encExpStub : Expandable StubObject → Json :=
  Expandable.toJson StubObject.id

/-- The derived serde Serialize of a Refund: fields in declaration order,
Option fields emitted only when set. -/
def Refund.serializeJson (r : Refund) : List (String × Json) :=
  [("id", Json.str r.id.val), ("amount", Json.num r.amount)]
  ++ optEntry "balance_transaction" encExpStub r.balance_transaction
  ++ optEntry "charge" encExpStub r.charge
  ++ [("created", Json.num r.created), ("currency", Json.str r.currency)]
  ++ optEntry "description" Json.str r.description
  ++ optEntry "failure_balance_transaction" encExpStub r.failure_balance_transaction
  ++ optEntry "failure_reason" Json.str r.failure_reason
  ++ [("metadata", encMetadata r.metadata)]
  ++ optEntry "reason" Json.str r.reason
  ++ optEntry "receipt_number" Json.str r.receipt_number
  ++ optEntry "source_transfer_reversal" encExpStub r.source_transfer_reversal
  ++ optEntry "status" Json.str r.status
  ++ optEntry "transfer_reversal" encExpStub r.transfer_reversal

/-- All field names of the Refund struct, in declaration order. -/
def Refund.fieldNames : List String :=
  ["id", "amount", "balance_transaction", "charge", "created", "currency",
   "description", "failure_balance_transaction", "failure_reason", "metadata",
   "reason", "receipt_number", "source_transfer_reversal", "status",
   "transfer_reversal"]

/-- The impl Object for Refund in refund.rs: fn object returns the
constant string literal refund for every instance. -/
def Refund.object (_ : Refund) : String := "refund"

/-- The impl Object for Refund in refund.rs: fn id returns a clone of the
own id field. -/
def Refund.objectId (r : Refund) : RefundId := r.id

/-- Modelled from the spec: the RangeQuery filter of the missing params.rs
— a range filter over a value type, either an exact value or a set of
optional bounds. -/
inductive RangeQuery (α : Type) where
  | eq (value : α)
  | bounds (gt gte lt lte : Option α)

/-- Serialization of a RangeQuery filter. -/
def RangeQuery.toJson (enc : α → Json) : RangeQuery α → Json
  | .eq v => enc v
  | .bounds gt gte lt lte =>
    Json.obj (optEntry "gt" enc gt ++ optEntry "gte" enc gte
      ++ optEntry "lt" enc lt ++ optEntry "lte" enc lte)

/-- The CreateRefund parameter struct of refund.rs; every field is
optional (Option with skip_serializing_if, or an expand slice skipped when
empty). -/
structure CreateRefund where
  amount : Option Int
  charge : Option ChargeId
  expand : List String
  metadata : Option Metadata
  reason : Option RefundReason
  refund_application_fee : Option Bool
  reverse_transfer : Option Bool

/-- The CreateRefund new constructor: every field takes its default. -/
def CreateRefund.new : CreateRefund :=
  ⟨none, none, [], none, none, none, none⟩

/-- The derived serde Serialize of CreateRefund, fields in declaration
order. -/
def CreateRefund.serialize (p : CreateRefund) : List (String × Json) :=
  optEntry "amount" Json.num p.amount
  ++ optEntry "charge" (fun c => Json.str c.val) p.charge
  ++ expandEntry p.expand
  ++ optEntry "metadata" encMetadata p.metadata
  ++ optEntry "reason" RefundReason.toJson p.reason
  ++ optEntry "refund_application_fee" Json.bool p.refund_application_fee
  ++ optEntry "reverse_transfer" Json.bool p.reverse_transfer

/-- The ListRefunds parameter struct of refund.rs; every field is
optional. -/
structure ListRefunds where
  charge : Option ChargeId
  created : Option (RangeQuery Timestamp)
  ending_before : Option RefundId
  expand : List String
  limit : Option Nat
  starting_after : Option RefundId

/-- The ListRefunds new constructor: every field takes its default. -/
def ListRefunds.new : ListRefunds :=
  ⟨none, none, none, [], none, none⟩

/-- The derived serde Serialize of ListRefunds, fields in declaration
order. -/
def ListRefunds.serialize (p : ListRefunds) : List (String × Json) :=
  optEntry "charge" (fun c => Json.str c.val) p.charge
  ++ optEntry "created" (RangeQuery.toJson Json.num) p.created
  ++ optEntry "ending_before" (fun i => Json.str i.val) p.ending_before
  ++ expandEntry p.expand
  ++ optEntry "limit" (fun n => Json.num n) p.limit
  ++ optEntry "starting_after" (fun i => Json.str i.val) p.starting_after

/-- The UpdateRefund parameter struct of refund.rs; every field is
optional. -/
structure UpdateRefund where
  expand : List String
  metadata : Option Metadata

/-- The UpdateRefund new constructor: every field takes its default. -/
def UpdateRefund.new : UpdateRefund :=
  ⟨[], none⟩

/-- The derived serde Serialize of UpdateRefund, fields in declaration
order. -/
def UpdateRefund.serialize (p : UpdateRefund) : List (String × Json) :=
  expandEntry p.expand
  ++ optEntry "metadata" encMetadata p.metadata

/-- The SubscriptionBilling enum of subscription.rs, serde rename_all
snake_case. -/
inductive SubscriptionBilling where
  | ChargeAutomatically
  | SendInvoice
  deriving DecidableEq

/-- The derived serde Serialize of SubscriptionBilling. -/
def SubscriptionBilling.toJson : SubscriptionBilling → Json
  | .ChargeAutomatically => Json.str "charge_automatically"
  | .SendInvoice => Json.str "send_invoice"

/-- The SubscriptionStatus enum of subscription.rs, serde rename_all
snake_case. -/
inductive SubscriptionStatus where
  | Active
  | Canceled
  | Incomplete
  | IncompleteExpired
  | PastDue
  | Trialing
  | Unpaid
  deriving DecidableEq

/-- The SubscriptionStatusFilter enum of subscription.rs, serde rename_all
snake_case. -/
inductive SubscriptionStatusFilter where
  | Active
  | All
  | Canceled
  | Ended
  | Incomplete
  | IncompleteExpired
  | PastDue
  | Trialing
  | Unpaid
  deriving DecidableEq

/-- The derived serde Serialize of SubscriptionStatusFilter. -/
def SubscriptionStatusFilter.toJson : SubscriptionStatusFilter → Json
  | .Active => Json.str "active"
  | .All => Json.str "all"
  | .Canceled => Json.str "canceled"
  | .Ended => Json.str "ended"
  | .Incomplete => Json.str "incomplete"
  | .IncompleteExpired => Json.str "incomplete_expired"
  | .PastDue => Json.str "past_due"
  | .Trialing => Json.str "trialing"
  | .Unpaid => Json.str "unpaid"

/-- The TrialEnd untagged enum of subscription.rs: either a timestamp or a
special string value. -/
inductive TrialEnd where
  | timestamp (t : Timestamp)
  | special (s : String)

/-- The derived serde Serialize of the untagged TrialEnd. -/
def TrialEnd.toJson : TrialEnd → Json
  | .timestamp t => Json.num t
  | .special s => Json.str s

/-- The ItemParams struct of subscription.rs: a required plan and an
optional quantity. -/
structure ItemParams where
  plan : String
  quantity : Option Nat

/-- The derived serde Serialize of ItemParams: the required plan key is
always emitted, quantity only when set. -/
def ItemParams.toJson (ip : ItemParams) : Json :=
  Json.obj ([("plan", Json.str ip.plan)]
    ++ optEntry "quantity" (fun n => Json.num n) ip.quantity)

/-- The Subscription DTO of subscription.rs.  Fields in declaration order;
Option fields carry skip_serializing_if Option is_none in the source.  The
customer, default_payment_method and latest_invoice expandable targets are
DTOs whose files are absent (and the customer reference would be cyclic),
so they are represented by the identity-carrying StubObject. -/
structure Subscription where
  id : SubscriptionId
  application_fee_percent : Option Float
  billing : SubscriptionBilling
  billing_cycle_anchor : Timestamp
  billing_thresholds : Option SubscriptionBillingThresholds
  cancel_at_period_end : Bool
  canceled_at : Option Timestamp
  created : Timestamp
  current_period_end : Timestamp
  current_period_start : Timestamp
  customer : Expandable StubObject
  days_until_due : Option Nat
  default_payment_method : Option (Expandable StubObject)
  default_source : Option PaymentSource
  default_tax_rates : Option (List TaxRate)
  discount : Option Discount
  ended_at : Option Timestamp
  items : StripeList SubscriptionItem
  latest_invoice : Option (Expandable StubObject)
  livemode : Bool
  metadata : Metadata
  plan : Option Plan
  quantity : Option Nat
  start : Option Timestamp
  start_date : Option Timestamp
  status : SubscriptionStatus
  tax_percent : Option Float
  trial_end : Option Timestamp
  trial_start : Option Timestamp

/-- The impl Object for Subscription in subscription.rs: fn object returns
the constant string literal subscription for every instance. -/
def Subscription.object (_ : Subscription) : String := "subscription"

/-- The impl Object for Subscription in subscription.rs: fn id returns a
clone of the own id field. -/
def Subscription.objectId (s : Subscription) : SubscriptionId := s.id

/-- The field names of the Subscription struct that are not Option-typed
(hence required by the derived Deserialize and always emitted by the
derived Serialize), in declaration order. -/
def Subscription.requiredFields : List String :=
  ["id", "billing", "billing_cycle_anchor", "cancel_at_period_end",
   "created", "current_period_end", "current_period_start", "customer",
   "items", "livemode", "metadata", "status"]

/-- The SubscriptionParams struct of subscription.rs (create and update
parameters); every field is optional. -/
structure SubscriptionParams where
  customer : Option String
  application_fee_percent : Option Float
  coupon : Option String
  items : Option (List ItemParams)
  metadata : Option Metadata
  plan : Option String
  prorate : Option Bool
  proration_date : Option Timestamp
  quantity : Option Nat
  source : Option String
  tax_percent : Option Float
  trial_end : Option TrialEnd
  trial_period_days : Option Nat

/-- The derived Default of SubscriptionParams: every field unset. -/
def SubscriptionParams.default : SubscriptionParams :=
  ⟨none, none, none, none, none, none, none, none, none, none, none, none, none⟩

/-- The derived serde Serialize of SubscriptionParams, fields in
declaration order. -/
def SubscriptionParams.serialize (p : SubscriptionParams) : List (String × Json) :=
  optEntry "customer" Json.str p.customer
  ++ optEntry "application_fee_percent" Json.flt p.application_fee_percent
  ++ optEntry "coupon" Json.str p.coupon
  ++ optEntry "items" (fun l => Json.arr (l.map ItemParams.toJson)) p.items
  ++ optEntry "metadata" encMetadata p.metadata
  ++ optEntry "plan" Json.str p.plan
  ++ optEntry "prorate" Json.bool p.prorate
  ++ optEntry "proration_date" Json.num p.proration_date
  ++ optEntry "quantity" (fun n => Json.num n) p.quantity
  ++ optEntry "source" Json.str p.source
  ++ optEntry "tax_percent" Json.flt p.tax_percent
  ++ optEntry "trial_end" TrialEnd.toJson p.trial_end
  ++ optEntry "trial_period_days" (fun n => Json.num n) p.trial_period_days

/-- The SubscriptionListParams struct of subscription.rs; every field is
optional. -/
structure SubscriptionListParams where
  billing : Option SubscriptionBilling
  created : Option (RangeQuery Timestamp)
  current_period_end : Option (RangeQuery Timestamp)
  current_period_start : Option (RangeQuery Timestamp)
  customer : Option CustomerId
  ending_before : Option SubscriptionId
  expand : List String
  limit : Option Nat
  plan : Option PlanId
  starting_after : Option SubscriptionId
  status : Option SubscriptionStatusFilter

/-- The SubscriptionListParams new constructor: every field takes its
default. -/
def SubscriptionListParams.new : SubscriptionListParams :=
  ⟨none, none, none, none, none, none, [], none, none, none, none⟩

/-- The derived serde Serialize of SubscriptionListParams, fields in
declaration order. -/
def SubscriptionListParams.serialize (p : SubscriptionListParams) :
    List (String × Json) :=
  optEntry "billing" SubscriptionBilling.toJson p.billing
  ++ optEntry "created" (RangeQuery.toJson Json.num) p.created
  ++ optEntry "current_period_end" (RangeQuery.toJson Json.num) p.current_period_end
  ++ optEntry "current_period_start" (RangeQuery.toJson Json.num) p.current_period_start
  ++ optEntry "customer" (fun i => Json.str i.val) p.customer
  ++ optEntry "ending_before" (fun i => Json.str i.val) p.ending_before
  ++ expandEntry p.expand
  ++ optEntry "limit" (fun n => Json.num n) p.limit
  ++ optEntry "plan" (fun i => Json.str i.val) p.plan
  ++ optEntry "starting_after" (fun i => Json.str i.val) p.starting_after
  ++ optEntry "status" SubscriptionStatusFilter.toJson p.status

/-- The CancelParams struct of subscription.rs. -/
structure CancelParams where
  at_period_end : Option Bool

/-- The derived serde Serialize of CancelParams. -/
def CancelParams.serialize (p : CancelParams) : List (String × Json) :=
  optEntry "at_period_end" Json.bool p.at_period_end

/-- The Source enum of source.rs: an internally tagged serde enum
discriminated by the object field, with the single variant Card (renamed
card on the wire).  The Card payload type lives in an absent file, so the
type is parametric in it. -/
inductive Source (α : Type) where
  | Card (c : α)

/-- The derived serde Deserialize of the internally tagged Source enum:
the payload must be a JSON object, its object field selects the variant;
only the tag card is known, and the variant content is parsed from the
object by the Card parser. -/
def Source.fromJson (parseCard : Json → Option α) : Json → Option (Source α)
  | .obj kvs =>
    match kvs.lookup "object" with
    | some (.str tag) =>
      if tag = "card" then (parseCard (Json.obj kvs)).map Source.Card
      else none
    | some _ => none
    | none => none
  | _ => none

/-- The RedirectParams struct of source.rs: a required return_url. -/
structure RedirectParams where
  return_url : String

/-- The derived serde Serialize of RedirectParams. -/
def RedirectParams.toJson (r : RedirectParams) : Json :=
  Json.obj [("return_url", Json.str r.return_url)]

/-- The OwnerParams struct of source.rs; every field is optional. -/
structure OwnerParams where
  address : Option Address
  email : Option String
  name : Option String
  phone : Option String

/-- An OwnerParams instance with every field unset. -/
def OwnerParams.allUnset : OwnerParams :=
  ⟨none, none, none, none⟩

/-- The derived serde Serialize of OwnerParams, fields in declaration
order. -/
def OwnerParams.serialize (p : OwnerParams) : List (String × Json) :=
  optEntry "address" (fun a => Json.obj a.payload) p.address
  ++ optEntry "email" Json.str p.email
  ++ optEntry "name" Json.str p.name
  ++ optEntry "phone" Json.str p.phone

/-- The SourceParams struct of source.rs; every field is optional and the
source_type field is renamed to type on the wire by a serde rename
attribute. -/
structure SourceParams where
  source_type : Option String
  amount : Option Nat
  currency : Option String
  flow : Option String
  metadata : Option Metadata
  owner : Option OwnerParams
  redirect : Option RedirectParams
  token : Option String
  usage : Option String

/-- The derived Default of SourceParams: every field unset. -/
def SourceParams.default : SourceParams :=
  ⟨none, none, none, none, none, none, none, none, none⟩

/-- The derived serde Serialize of SourceParams, fields in declaration
order, source_type emitted under the key type. -/
def SourceParams.serialize (p : SourceParams) : List (String × Json) :=
  optEntry "type" Json.str p.source_type
  ++ optEntry "amount" (fun n => Json.num n) p.amount
  ++ optEntry "currency" Json.str p.currency
  ++ optEntry "flow" Json.str p.flow
  ++ optEntry "metadata" encMetadata p.metadata
  ++ optEntry "owner" (fun o => Json.obj o.serialize) p.owner
  ++ optEntry "redirect" RedirectParams.toJson p.redirect
  ++ optEntry "token" Json.str p.token
  ++ optEntry "usage" Json.str p.usage

/-- The CustomerShippingDetails struct of customer.rs: all three fields
required. -/
structure CustomerShippingDetails where
  address : Address
  name : String
  phone : String

/-- The derived serde Serialize of CustomerShippingDetails. -/
def CustomerShippingDetails.toJson (d : CustomerShippingDetails) : Json :=
  Json.obj [("address", Json.obj d.address.payload),
    ("name", Json.str d.name), ("phone", Json.str d.phone)]

/-- The CustomerSource untagged enum of customer.rs: a token string or
card parameters. -/
inductive CustomerSource where
  | Token (t : String)
  | Card (c : CardParams)

/-- The derived serde Serialize of the untagged CustomerSource. -/
def CustomerSource.toJson : CustomerSource → Json
  | .Token t => Json.str t
  | .Card c => Json.obj c.payload

/-- The CustomerParams struct of customer.rs; every field is optional. -/
structure CustomerParams where
  account_balance : Option Int
  business_vat_id : Option String
  coupon : Option String
  description : Option String
  email : Option String
  metadata : Option Metadata
  shipping : Option CustomerShippingDetails
  source : Option CustomerSource

/-- The derived Default of CustomerParams: every field unset. -/
def CustomerParams.default : CustomerParams :=
  ⟨none, none, none, none, none, none, none, none⟩

/-- The derived serde Serialize of CustomerParams, fields in declaration
order. -/
def CustomerParams.serialize (p : CustomerParams) : List (String × Json) :=
  optEntry "account_balance" Json.num p.account_balance
  ++ optEntry "business_vat_id" Json.str p.business_vat_id
  ++ optEntry "coupon" Json.str p.coupon
  ++ optEntry "description" Json.str p.description
  ++ optEntry "email" Json.str p.email
  ++ optEntry "metadata" encMetadata p.metadata
  ++ optEntry "shipping" CustomerShippingDetails.toJson p.shipping
  ++ optEntry "source" CustomerSource.toJson p.source

/-- The Customer DTO of customer.rs.  Its id field is a plain String in
the source, not an identifier newtype; there is no impl Object block in
customer.rs. -/
structure Customer where
  id : String
  account_balance : Int
  business_vat_id : Option String
  created : Nat
  currency : String
  default_source : String
  delinquent : Bool
  desc : Option String
  discount : Option Discount
  email : String
  livemode : Bool
  metadata : Metadata
  shipping : Option CustomerShippingDetails
  sources : StripeList (Source Card)
  subscriptions : StripeList Subscription

/-- The field names of the Customer struct that are not Option-typed
(hence required by the derived Deserialize), in declaration order. -/
def Customer.requiredFields : List String :=
  ["id", "account_balance", "created", "currency", "default_source",
   "delinquent", "email", "livemode", "metadata", "sources", "subscriptions"]

/-- Path of Refund list in refund.rs: the collection path. -/
def Refund.listPath : String := "/refunds"

/-- Path of Refund create in refund.rs: the collection path. -/
def Refund.createPath : String := "/refunds"

/-- Path built by Refund retrieve in refund.rs from the identifier. -/
def Refund.retrievePath (id : RefundId) : String := "/refunds/" ++ id.val

/-- Path built by Refund update in refund.rs from the identifier. -/
def Refund.updatePath (id : RefundId) : String := "/refunds/" ++ id.val

/-- Path of Subscription create in subscription.rs: the collection path. -/
def Subscription.createPath : String := "/subscriptions"

/-- Path of Subscription list in subscription.rs: the collection path. -/
def Subscription.listPath : String := "/subscriptions"

/-- Path built by Subscription retrieve in subscription.rs; the
identifier parameter is a plain string slice in the source. -/
def Subscription.retrievePath (id : String) : String := "/subscriptions/" ++ id

/-- Path built by Subscription update in subscription.rs. -/
def Subscription.updatePath (id : String) : String := "/subscriptions/" ++ id

/-- Path built by Subscription cancel in subscription.rs. -/
def Subscription.cancelPath (id : String) : String := "/subscriptions/" ++ id

/-- Path of Customer create in customer.rs: the collection path. -/
def Customer.createPath : String := "/customers"

/-- Path built by Customer get in customer.rs; the identifier parameter is
a plain string slice in the source. -/
def Customer.getPath (id : String) : String := "/customers/" ++ id

/-- Path built by Customer update in customer.rs. -/
def Customer.updatePath (id : String) : String := "/customers/" ++ id

/-- Path built by Customer delete in customer.rs. -/
def Customer.deletePath (id : String) : String := "/customers/" ++ id

/-- Path of Source create in source.rs: the collection path. -/
def Source.createPath : String := "/sources"

/-- Path built by Source get in source.rs; the identifier parameter is a
plain string slice in the source. -/
def Source.getPath (id : String) : String := "/sources/" ++ id

/-- Path built by Source update in source.rs, exactly as written at line
54 of source.rs: the prefix is the singular string source, not the
collection path sources used by create and get. -/
def Source.updatePath (id : String) : String := "/source/" ++ id

/-- The four resource DTO kinds of the corpus. -/
inductive ResourceKind where
  | refund
  | subscription
  | customer
  | source
  deriving DecidableEq

/-- Records, for each resource DTO of the corpus, whether its file
contains an impl Object block (the resource-identity contract): refund.rs
and subscription.rs do, customer.rs and source.rs do not. -/
def implementsObjectContract : ResourceKind → Bool
  | .refund => true
  | .subscription => true
  | .customer => false
  | .source => false

/-- The nominal Rust types used for identifiers in the corpus, as declared
in the source: one newtype per typed resource, or the plain string type. -/
inductive IdTypeRepr where
  | refundId
  | chargeId
  | subscriptionId
  | customerId
  | planId
  | rawStr
  deriving DecidableEq

/-- Declared type of the Refund id field in refund.rs: RefundId. -/
def Refund.idFieldType : IdTypeRepr := .refundId

/-- Declared type of the id parameter of Refund retrieve in refund.rs: a
RefundId reference. -/
def Refund.retrieveIdType : IdTypeRepr := .refundId

/-- Declared type of the id parameter of Refund update in refund.rs: a
RefundId reference. -/
def Refund.updateIdType : IdTypeRepr := .refundId

/-- Declared type of the Subscription id field in subscription.rs:
SubscriptionId. -/
def Subscription.idFieldType : IdTypeRepr := .subscriptionId

/-- Declared type of the id parameter of Subscription retrieve in
subscription.rs: a plain string slice. -/
def Subscription.retrieveIdType : IdTypeRepr := .rawStr

/-- Declared type of the id parameter of Subscription update in
subscription.rs: a plain string slice. -/
def Subscription.updateIdType : IdTypeRepr := .rawStr

/-- Declared type of the id parameter of Subscription cancel in
subscription.rs: a plain string slice. -/
def Subscription.cancelIdType : IdTypeRepr := .rawStr

/-- Declared type of the Customer id field in customer.rs: a plain
String. -/
def Customer.idFieldType : IdTypeRepr := .rawStr

/-- Declared type of the id parameter of Customer get in customer.rs: a
plain string slice. -/
def Customer.getIdType : IdTypeRepr := .rawStr

/-- Declared type of the id parameter of Customer update in customer.rs: a
plain string slice. -/
def Customer.updateIdType : IdTypeRepr := .rawStr

/-- Declared type of the id parameter of Customer delete in customer.rs: a
plain string slice. -/
def Customer.deleteIdType : IdTypeRepr := .rawStr

/-- Declared type of the id parameter of Source get in source.rs: a plain
string slice. -/
def Source.getIdType : IdTypeRepr := .rawStr

/-- Declared type of the id parameter of Source update in source.rs: a
plain string slice. -/
def Source.updateIdType : IdTypeRepr := .rawStr

/-- A well-formed minimal refund payload: all five required fields of the
Refund struct are present, no optional field is, and in particular there
is no livemode key because the Refund struct declares no such field. -/
def refundFields1 : List (String × Json) :=
  [("id", Json.str "re_1"), ("amount", Json.num 100), ("created", Json.num 1),
   ("currency", Json.str "usd"), ("metadata", Json.obj [])]

/-- The refund payload as a JSON value. -/
def refundJson1 : Json := Json.obj refundFields1

/-- The Refund value that refundJson1 deserializes to. -/
def refundRe1 : Refund :=
  { id := ⟨"re_1"⟩, amount := 100, balance_transaction := none, charge := none,
    created := 1, currency := "usd", description := none,
    failure_balance_transaction := none, failure_reason := none,
    metadata := [], reason := none, receipt_number := none,
    source_transfer_reversal := none, status := none, transfer_reversal := none }

/-- The refund payload with its required id field removed. -/
def refundFieldsNoId : List (String × Json) :=
  [("amount", Json.num 100), ("created", Json.num 1),
   ("currency", Json.str "usd"), ("metadata", Json.obj [])]

/-- The refund payload with its required created field removed. -/
def refundFieldsNoCreated : List (String × Json) :=
  [("id", Json.str "re_1"), ("amount", Json.num 100),
   ("currency", Json.str "usd"), ("metadata", Json.obj [])]

/-- A concrete Subscription value used to instantiate universally
quantified statements. -/
def sampleSubscription : Subscription :=
  { id := ⟨"sub_1"⟩, application_fee_percent := none,
    billing := .ChargeAutomatically, billing_cycle_anchor := 0,
    billing_thresholds := none, cancel_at_period_end := false,
    canceled_at := none, created := 0, current_period_end := 0,
    current_period_start := 0, customer := .id "cus_1",
    days_until_due := none, default_payment_method := none,
    default_source := none, default_tax_rates := none, discount := none,
    ended_at := none, items := ⟨[], false, none⟩, latest_invoice := none,
    livemode := false, metadata := [], plan := none, quantity := none,
    start := none, start_date := none, status := .Active,
    tax_percent := none, trial_end := none, trial_start := none }

/-- Parsing a JSON array elementwise preserves the number of elements. -/
theorem traverseOpt_length {α : Type} {f : Json → Option α} :
    ∀ {js : List Json} {items : List α},
      traverseOpt f js = some items → items.length = js.length := by
  intro js
  induction js with
  | nil =>
    intro items h
    cases h
    rfl
  | cons j js ih =>
    intro items h
    simp only [traverseOpt] at h
    cases hf : f j with
    | none => rw [hf] at h; simp at h
    | some a =>
      rw [hf] at h
      simp only [Option.some_bind] at h
      cases ht : traverseOpt f js with
      | none => rw [ht] at h; simp at h
      | some as =>
        rw [ht] at h
        simp only [Option.map_some'] at h
        cases h
        simp [ih ht]

/-- Deserializing an Expandable from a payload that is not a JSON string
always hands the payload to the target object parser. -/
theorem expandable_fromJson_not_str {α : Type} (f : Json → Option α) (j : Json)
    (hns : ∀ s : String, j ≠ Json.str s) :
    Expandable.fromJson f j = (f j).map Expandable.object := by
  cases j <;> first | exact absurd rfl (hns _) | rfl

/-- Claim C1 (corrected): the generated DTOs Refund and Subscription
implement the resource-identity contract — their object-tag operations
return the fixed, mutually distinct literals refund and subscription for
every instance and their id operations return the own identifier — but
the legacy Customer and Source DTOs implement no such contract at all. -/
theorem object_contract_amended :
    (∀ r : Refund, r.object = "refund" ∧ r.objectId = r.id) ∧
    (∀ s : Subscription, s.object = "subscription" ∧ s.objectId = s.id) ∧
    ("refund" : String) ≠ "subscription" ∧
    implementsObjectContract ResourceKind.refund = true ∧
    implementsObjectContract ResourceKind.subscription = true ∧
    implementsObjectContract ResourceKind.customer = false ∧
    implementsObjectContract ResourceKind.source = false :=
  ⟨fun _ => ⟨rfl, rfl⟩, fun _ => ⟨rfl, rfl⟩, by decide, rfl, rfl, rfl, rfl⟩

/-- Claim C1 counterexample: the Customer and Source DTO files contain no
impl of the resource-identity contract, refuting the claim that every
resource DTO, Customer and Source included, provides id and object-tag
operations. -/
theorem customer_no_object_impl :
    implementsObjectContract ResourceKind.customer = false ∧
    implementsObjectContract ResourceKind.source = false :=
  ⟨rfl, rfl⟩

/-- Claim C1 witness: the contract operations evaluated on concrete
Refund and Subscription values. -/
theorem object_contract_amended_witness :
    refundRe1.object = "refund" ∧ refundRe1.objectId = refundRe1.id ∧
    sampleSubscription.object = "subscription" ∧
    sampleSubscription.objectId = sampleSubscription.id :=
  ⟨(object_contract_amended.1 refundRe1).1,
   (object_contract_amended.1 refundRe1).2,
   (object_contract_amended.2.1 sampleSubscription).1,
   (object_contract_amended.2.1 sampleSubscription).2⟩

/-- Claim C2 (confirmed): serializing each of the eight parameter
structures with every optional field unset produces an empty payload — no
key is emitted for any unset field and in particular no explicit null. -/
theorem params_all_unset_serialize_empty :
    CreateRefund.serialize CreateRefund.new = [] ∧
    ListRefunds.serialize ListRefunds.new = [] ∧
    UpdateRefund.serialize UpdateRefund.new = [] ∧
    SubscriptionParams.serialize SubscriptionParams.default = [] ∧
    SubscriptionListParams.serialize SubscriptionListParams.new = [] ∧
    CustomerParams.serialize CustomerParams.default = [] ∧
    SourceParams.serialize SourceParams.default = [] ∧
    OwnerParams.serialize OwnerParams.allUnset = [] :=
  ⟨rfl, rfl, rfl, rfl, rfl, rfl, rfl, rfl⟩

/-- Claim C3 (confirmed): an update parameter structure whose metadata
field holds an explicitly empty mapping serializes to a payload carrying
the metadata key with an empty object value, while the unset metadata
field is omitted entirely, so the wire forms of clearing and of leaving
metadata unchanged are distinct. -/
theorem metadata_clear_vs_omit :
    UpdateRefund.serialize ⟨[], some []⟩ = [("metadata", Json.obj [])] ∧
    UpdateRefund.serialize ⟨[], none⟩ = [] ∧
    SubscriptionParams.serialize
        { SubscriptionParams.default with metadata := some [] }
      = [("metadata", Json.obj [])] ∧
    SubscriptionParams.serialize SubscriptionParams.default = [] ∧
    ([("metadata", Json.obj [])] : List (String × Json)) ≠ [] :=
  ⟨rfl, rfl, rfl, rfl, by simp⟩

/-- Claim C4 (confirmed, against the spec-modelled Expandable): a bare
string payload deserializes to the identifier variant whose id is that
exact string; a nested object payload accepted by the target parser
deserializes to the object variant whose id is the object own id; a
payload of any other shape fails to parse. -/
theorem expandable_deserialize_spec {α : Type} (objFromJson : Json → Option α)
    (getId : α → String) :
    (∀ s : String,
      Expandable.fromJson objFromJson (Json.str s) = some (Expandable.id s) ∧
      Expandable.idOf getId (Expandable.id (α := α) s) = s) ∧
    (∀ (kvs : List (String × Json)) (o : α),
      objFromJson (Json.obj kvs) = some o →
      Expandable.fromJson objFromJson (Json.obj kvs) = some (Expandable.object o) ∧
      Expandable.idOf getId (Expandable.object o) = getId o) ∧
    (∀ j : Json, (∀ s : String, j ≠ Json.str s) → objFromJson j = none →
      Expandable.fromJson objFromJson j = none) := by
  refine ⟨fun s => ⟨rfl, rfl⟩, fun kvs o h => ⟨?_, rfl⟩, fun j hns hn => ?_⟩
  · show (objFromJson (Json.obj kvs)).map Expandable.object
      = some (Expandable.object o)
    rw [h]
    rfl
  · rw [expandable_fromJson_not_str objFromJson j hns, hn]
    rfl

/-- Claim C4 witness: the three shapes evaluated concretely with the
stub target parser. -/
theorem expandable_deserialize_spec_witness :
    (Expandable.fromJson StubObject.fromJson (Json.str "ba_1")
        = some (Expandable.id "ba_1") ∧
      Expandable.idOf StubObject.id (Expandable.id (α := StubObject) "ba_1")
        = "ba_1") ∧
    (Expandable.fromJson StubObject.fromJson (Json.obj [("id", Json.str "ba_7")])
        = some (Expandable.object ⟨"ba_7"⟩) ∧
      Expandable.idOf StubObject.id (Expandable.object (⟨"ba_7"⟩ : StubObject))
        = "ba_7") ∧
    Expandable.fromJson StubObject.fromJson (Json.num 3) = none :=
  ⟨(expandable_deserialize_spec StubObject.fromJson StubObject.id).1 "ba_1",
   (expandable_deserialize_spec StubObject.fromJson StubObject.id).2.1
     [("id", Json.str "ba_7")] ⟨"ba_7"⟩ rfl,
   (expandable_deserialize_spec StubObject.fromJson StubObject.id).2.2
     (Json.num 3) (fun _ h => Json.noConfusion h) rfl⟩

/-- Claim C5 (confirmed, against the spec-modelled list container): a
well-formed list payload with a has_more flag and a data array whose
elements all parse deserializes to a container holding exactly those items
in payload order, with the same flag and the same length. -/
theorem list_response_deserialize {α : Type} (f : Json → Option α)
    (js : List Json) (b : Bool) (items : List α)
    (h : traverseOpt f js = some items) :
    StripeList.fromJson f
        (Json.obj [("data", Json.arr js), ("has_more", Json.bool b)])
      = some ⟨items, b, none⟩ ∧
    items.length = js.length := by
  constructor
  · show (traverseOpt f js).map (fun items => (⟨items, b, none⟩ : StripeList α))
      = some ⟨items, b, none⟩
    rw [h]
    rfl
  · exact traverseOpt_length h

/-- Claim C5 witness: the refund-list scenario — a page holding one
refund object with id re_1 and has_more false deserializes, with the real
Refund parser, to a one-element container with has_more false whose sole
item has id re_1. -/
theorem list_response_deserialize_witness :
    traverseOpt Refund.fromJson [refundJson1] = some [refundRe1] ∧
    (StripeList.fromJson Refund.fromJson
        (Json.obj [("data", Json.arr [refundJson1]), ("has_more", Json.bool false)])
      = some ⟨[refundRe1], false, none⟩ ∧
      ([refundRe1] : List Refund).length = [refundJson1].length) ∧
    refundRe1.id = RefundId.mk "re_1" ∧
    (⟨[refundRe1], false, none⟩ : StripeList Refund).has_more = false :=
  ⟨rfl,
   list_response_deserialize Refund.fromJson [refundJson1] false [refundRe1] rfl,
   rfl, rfl⟩

/-- Claim C6 (code bug): Source update builds its path from the singular
prefix source, diverging from the collection path sources used by Source
create and get, while the other resources (Refund, Subscription, Customer)
build every identifier path as their collection path followed by a slash
and the identifier. -/
theorem source_update_path_divergence :
    Source.updatePath "src_123" = "/source/src_123" ∧
    Source.getPath "src_123" = "/sources/src_123" ∧
    Source.createPath ++ "/" ++ "src_123" = "/sources/src_123" ∧
    Source.updatePath "src_123" ≠ Source.createPath ++ "/" ++ "src_123" ∧
    (∀ id : RefundId, Refund.retrievePath id = Refund.createPath ++ "/" ++ id.val) ∧
    (∀ id : String,
      Subscription.retrievePath id = Subscription.createPath ++ "/" ++ id) ∧
    (∀ id : String, Customer.getPath id = Customer.createPath ++ "/" ++ id) := by
  refine ⟨by decide, by decide, by decide, by decide, fun id => ?_, fun id => ?_,
    fun id => ?_⟩
  · show "/refunds/" ++ id.val = "/refunds" ++ "/" ++ id.val
    rw [show ("/refunds" ++ "/" : String) = "/refunds/" from by decide]
  · show "/subscriptions/" ++ id = "/subscriptions" ++ "/" ++ id
    rw [show ("/subscriptions" ++ "/" : String) = "/subscriptions/" from by decide]
  · show "/customers/" ++ id = "/customers" ++ "/" ++ id
    rw [show ("/customers" ++ "/" : String) = "/customers/" from by decide]

/-- Claim C7 (corrected): the Refund DTO and its operation methods use
the nominal RefundId type, and the Subscription DTO field uses the
distinct nominal SubscriptionId type; but the Subscription operation
methods and the Customer and Source DTO field and methods all use the
plain string type, so identifier confusion between those resources is not
prevented. -/
theorem id_types_amended :
    Refund.idFieldType = IdTypeRepr.refundId ∧
    Refund.retrieveIdType = IdTypeRepr.refundId ∧
    Refund.updateIdType = IdTypeRepr.refundId ∧
    Subscription.idFieldType = IdTypeRepr.subscriptionId ∧
    IdTypeRepr.refundId ≠ IdTypeRepr.subscriptionId ∧
    Subscription.retrieveIdType = IdTypeRepr.rawStr ∧
    Subscription.updateIdType = IdTypeRepr.rawStr ∧
    Subscription.cancelIdType = IdTypeRepr.rawStr ∧
    Customer.idFieldType = IdTypeRepr.rawStr ∧
    Customer.getIdType = IdTypeRepr.rawStr ∧
    Customer.updateIdType = IdTypeRepr.rawStr ∧
    Customer.deleteIdType = IdTypeRepr.rawStr ∧
    Source.getIdType = IdTypeRepr.rawStr ∧
    Source.updateIdType = IdTypeRepr.rawStr :=
  ⟨rfl, rfl, rfl, rfl, by decide, rfl, rfl, rfl, rfl, rfl, rfl, rfl, rfl, rfl⟩

/-- Claim C7 counterexample: the Customer id field and the id parameters
of the Customer, Source and Subscription operation methods are all the
same plain string type, so an identifier of one of those resource kinds is
accepted where an identifier of another is expected, refuting the claim
that every resource kind uses a distinct nominal identifier type. -/
theorem raw_string_id_counterexample :
    Customer.idFieldType = IdTypeRepr.rawStr ∧
    Customer.getIdType = IdTypeRepr.rawStr ∧
    Source.getIdType = IdTypeRepr.rawStr ∧
    Subscription.retrieveIdType = IdTypeRepr.rawStr ∧
    Customer.getIdType = Source.getIdType :=
  ⟨rfl, rfl, rfl, rfl, rfl⟩

/-- Claim C8 (corrected): each resource DTO requires exactly its declared
non-optional fields.  For Refund these are id, amount, created, currency
and metadata — there is no livemode field at all — so deserialization
fails when id or created is missing, succeeds on a payload without any
livemode key, and serialization always emits id and created; the
Subscription and Customer structs do declare id, created and livemode
among their required fields. -/
theorem required_fields_amended :
    Refund.fromJson (Json.obj refundFieldsNoId) = none ∧
    Refund.fromJson (Json.obj refundFieldsNoCreated) = none ∧
    Refund.fromJson (Json.obj refundFields1) = some refundRe1 ∧
    refundFields1.lookup "livemode" = none ∧
    (∀ r : Refund, "id" ∈ (Refund.serializeJson r).map Prod.fst ∧
      "created" ∈ (Refund.serializeJson r).map Prod.fst) ∧
    "livemode" ∉ Refund.fieldNames ∧
    "id" ∈ Subscription.requiredFields ∧
    "created" ∈ Subscription.requiredFields ∧
    "livemode" ∈ Subscription.requiredFields ∧
    "id" ∈ Customer.requiredFields ∧
    "created" ∈ Customer.requiredFields ∧
    "livemode" ∈ Customer.requiredFields :=
  ⟨rfl, rfl, rfl, rfl,
   fun r => ⟨by simp [Refund.serializeJson], by simp [Refund.serializeJson]⟩,
   by decide, by decide, by decide, by decide, by decide, by decide, by decide⟩

/-- Claim C8 counterexample: a refund payload carrying only the declared
required fields and no livemode key deserializes successfully, refuting
the claim that deserialization of every resource DTO fails when livemode
is missing — the Refund struct declares no livemode field. -/
theorem refund_no_livemode_counterexample :
    Refund.fromJson (Json.obj refundFields1) = some refundRe1 ∧
    refundFields1.lookup "livemode" = none ∧
    "livemode" ∉ Refund.fieldNames :=
  ⟨rfl, rfl, by decide⟩

/-- Claim C8 witness: the always-emitted keys evaluated on a concrete
Refund value. -/
theorem required_fields_amended_witness :
    "id" ∈ (Refund.serializeJson refundRe1).map Prod.fst ∧
    "created" ∈ (Refund.serializeJson refundRe1).map Prod.fst :=
  ⟨(required_fields_amended.2.2.2.2.1 refundRe1).1,
   (required_fields_amended.2.2.2.2.1 refundRe1).2⟩

/-- Claim C9 (confirmed): for every RefundReason value the hand-written
as_str string, the Display rendering and the serde wire form coincide —
duplicate, fraudulent and requested_by_customer respectively — and
deserializing that string yields the same value back. -/
theorem refund_reason_wire_roundtrip :
    (∀ r : RefundReason,
      r.as_str = r.wireName ∧
      r.displayStr = r.as_str ∧
      RefundReason.toJson r = Json.str r.as_str ∧
      RefundReason.fromJson (Json.str r.as_str) = some r) ∧
    RefundReason.Duplicate.as_str = "duplicate" ∧
    RefundReason.Fraudulent.as_str = "fraudulent" ∧
    RefundReason.RequestedByCustomer.as_str = "requested_by_customer" := by
  refine ⟨fun r => ?_, rfl, rfl, rfl⟩
  cases r <;>
    exact ⟨by decide, rfl, congrArg Json.str (by decide), by decide⟩

/-- Claim C9 witness: the round trip evaluated on a concrete value. -/
theorem refund_reason_wire_roundtrip_witness :
    RefundReason.Duplicate.as_str = RefundReason.Duplicate.wireName ∧
    RefundReason.fromJson (Json.str RefundReason.Duplicate.as_str)
      = some RefundReason.Duplicate :=
  ⟨(refund_reason_wire_roundtrip.1 RefundReason.Duplicate).1,
   (refund_reason_wire_roundtrip.1 RefundReason.Duplicate).2.2.2⟩

/-- Claim C10 (confirmed): deserializing a Source payload is dispatched
on the object tag field — the tag card yields the Card variant (given a
Card body the card parser accepts), a missing tag is an error, and any
other tag string is an error. -/
theorem source_tag_dispatch {α : Type} (parseCard : Json → Option α) :
    (∀ (kvs : List (String × Json)) (c : α),
      kvs.lookup "object" = some (Json.str "card") →
      parseCard (Json.obj kvs) = some c →
      Source.fromJson parseCard (Json.obj kvs) = some (Source.Card c)) ∧
    (∀ kvs : List (String × Json), kvs.lookup "object" = none →
      Source.fromJson parseCard (Json.obj kvs) = none) ∧
    (∀ (kvs : List (String × Json)) (tag : String),
      kvs.lookup "object" = some (Json.str tag) → tag ≠ "card" →
      Source.fromJson parseCard (Json.obj kvs) = none) := by
  refine ⟨fun kvs c h1 h2 => ?_, fun kvs h1 => ?_, fun kvs tag h1 h2 => ?_⟩
  · simp [Source.fromJson, h1, h2]
  · simp [Source.fromJson, h1]
  · simp [Source.fromJson, h1, h2]

/-- Claim C10 witness: the three tag shapes evaluated concretely with a
trivial card parser. -/
theorem source_tag_dispatch_witness :
    Source.fromJson (fun _ => some ()) (Json.obj [("object", Json.str "card")])
      = some (Source.Card ()) ∧
    Source.fromJson (fun _ => some ()) (Json.obj [("amount", Json.num 1)]) = none ∧
    Source.fromJson (fun _ => some ()) (Json.obj [("object", Json.str "charge")])
      = none :=
  ⟨(source_tag_dispatch (fun _ => some ())).1 [("object", Json.str "card")] () rfl rfl,
   (source_tag_dispatch (fun _ => some ())).2.1 [("amount", Json.num 1)] rfl,
   (source_tag_dispatch (fun _ => some ())).2.2 [("object", Json.str "charge")]
     "charge" rfl (by decide)⟩

end Stripe
